import Mathlib

/-!
Shallow embedding of `argos/repo/rtiplugins/zarrio.py`: Repository Tree
Items (RTIs) that adapt Zarr arrays and groups to the argos tree-node
interface.  The external Zarr library objects are modelled by explicit
structures carrying the behaviour the adapter observes: attribute
containers whose reads may fail, arrays with shape/dtype/chunks/fill
value, and a group environment mapping group identifiers to their keys
and children.  A Python exception is modelled as `Except.error` carrying
the exception text; code that catches exceptions is translated by
matching on the `Except` value exactly where the `try/except` sits in
the source.
-/

/-- Model of a Python value as stored in Zarr attributes: integers,
strings and (nested) lists. -/
inductive Value : Type where
  | vInt (n : Int) : Value
  | vStr (s : String) : Value
  | vList (vs : List Value) : Value

mutual

/-- Python equality (`==`) on modelled values. -/
def valueBeq : Value → Value → Bool
  | Value.vInt a, Value.vInt b => a == b
  | Value.vStr a, Value.vStr b => a == b
  | Value.vList as, Value.vList bs => valueListBeq as bs
  | _, _ => false

/-- Python equality on lists of modelled values. -/
def valueListBeq : List Value → List Value → Bool
  | [], [] => true
  | x :: xs, y :: ys => valueBeq x y && valueListBeq xs ys
  | _, _ => false

end

mutual

/-- Python `str()` conversion of a modelled value. -/
def pyStr : Value → String
  | Value.vInt n => toString n
  | Value.vStr s => s
  | Value.vList vs => "[" ++ pyStrList vs ++ "]"

/-- Comma-separated rendering of the elements of a Python list. -/
def pyStrList : List Value → String
  | [] => ""
  | [v] => pyStr v
  | v :: rest => pyStr v ++ ", " ++ pyStrList rest

end

/-- Python `value != 0`: an integer is compared numerically, while a
string or list compared to `0` is simply unequal. -/
def pyNeZero : Value → Bool
  | Value.vInt n => n != 0
  | Value.vStr _ => true
  | Value.vList _ => true

/-- Python `list(value)`: lists convert to themselves, strings to the
list of their one-character strings, and integers raise `TypeError`. -/
def pyList : Value → Except String (List Value)
  | Value.vList vs => Except.ok vs
  | Value.vStr s => Except.ok (s.toList.map (fun c => Value.vStr (String.mk [c])))
  | Value.vInt _ => Except.error ("TypeError: int object is not iterable")

/-- Model of a Zarr attributes object (`attrs`).  `keysSeq` is the
sequence of keys that iterating `attrs.keys()` yields before either
finishing normally (`iterError = none`) or raising (`iterError = some
message`); `mem` is the containment test used by the Python `in`
operator; `read` is subscripting `attrs[key]`, which may raise. -/
structure Attrs where
  keysSeq : List String
  iterError : Option String
  mem : String → Bool
  read : String → Except String Value

/-- Python dictionary assignment `result[key] = v`: overwrites the value
of an existing key in place, otherwise appends the binding. -/
def dictInsert (d : List (String × Value)) (key : String) (v : Value) :
    List (String × Value) :=
  if d.any (fun p => p.1 == key) then
    d.map (fun p => if p.1 == key then (key, v) else p)
  else d ++ [(key, v)]

/-- `attrsToDict` from zarrio.py: reads all attributes into a
dictionary.  A key whose read raises is mapped to the exception text
(after logging a warning); if iterating the keys raises, the dictionary
accumulated so far is returned. -/
def attrsToDict (attrs : Attrs) : List (String × Value) :=
  let result := attrs.keysSeq.foldl (fun result key =>
    match attrs.read key with
    | Except.ok v => dictInsert result key v
    | Except.error ex => dictInsert result key (Value.vStr ex)) []
  match attrs.iterError with
  | some _ => result
  | none => result

/-- Model of a Zarr array object: the fields of the external library
object that the adapter reads.  `data` is indexing (`zarrArray[index]`)
already converted to a numpy array, with the index abstracted to a
natural-number token and the selected data flattened to its values. -/
structure ZarrArray where
  shape : List Nat
  dtypeNames : Option (List String)
  dtypeStr : String
  chunks : Option (List Nat)
  hasFillValue : Bool
  fillValue : Option Value
  attrs : Attrs
  data : Nat → List Value

/-- Looks up the first key of `keys` present in `attrs` (Python `in`
followed by subscripting); `none` when no key is present. -/
def lookupFirstAttr (attrs : Attrs) : List String → Except String (Option Value)
  | [] => Except.ok none
  | k :: ks => if attrs.mem k then (attrs.read k).map some else lookupFirstAttr attrs ks

/-- The unit attribute names searched by `zarrArrayUnit`, in order. -/
def unitAttrKeys : List String := ["unit", "units", "Unit", "Units", "UNIT", "UNITS"]

/-- `zarrArrayUnit` from zarrio.py: the string conversion of the first
unit-like attribute present, or the empty string. -/
def zarrArrayUnit (zarrArray : ZarrArray) : Except String String :=
  (lookupFirstAttr zarrArray.attrs unitAttrKeys).map (fun r =>
    match r with
    | some v => pyStr v
    | none => "")

/-- The missing-value attribute names searched by
`zarrArrayMissingValue`, in order. -/
def missingValueAttrKeys : List String :=
  ["missing_value", "MissingValue", "missingValue", "FillValue", "_FillValue", "fill_value"]

/-- `zarrArrayMissingValue` from zarrio.py: the `fill_value` when the
attribute exists, is not `None` and is not `0`; otherwise the first
missing-value-like attribute present; otherwise `None`. -/
def zarrArrayMissingValue (zarrArray : ZarrArray) : Except String (Option Value) :=
  if zarrArray.hasFillValue then
    match zarrArray.fillValue with
    | some fv =>
      if pyNeZero fv then Except.ok (some fv)
      else lookupFirstAttr zarrArray.attrs missingValueAttrKeys
    | none => lookupFirstAttr zarrArray.attrs missingValueAttrKeys
  else lookupFirstAttr zarrArray.attrs missingValueAttrKeys

/-- Modelled from the spec: `DIM_TEMPLATE` from `argos.utils.defs` (not
part of the analysed sources) is a format template producing a default
dimension name from the dimension number. -/
def dimTemplateFormat (dimNr : Nat) : String := "dim-" ++ toString dimNr

/-- Modelled from the spec: `maskedEqual` from `argos.utils.masks` (not
part of the analysed sources) masks the elements of an array that are
equal to the missing value; each element is paired with its mask flag,
and a missing value of `None` masks nothing. -/
def maskedEqual (ar : List Value) (missingValue : Option Value) : List (Value × Bool) :=
  match missingValue with
  | none => ar.map (fun v => (v, false))
  | some m => ar.map (fun v => (v, valueBeq v m))

/-- `ZarrArrayRti`: the repository tree item wrapping a Zarr array.  The
fields set by the constructor, in order: the wrapped array (possibly
`None`), node name, file name, icon color, and the `_isStructured` flag
computed at construction. -/
structure ZarrArrayRti where
  zarrArray : Option ZarrArray
  nodeName : String
  fileName : String
  iconColor : String
  isStructured : Bool

/-- `ZarrArrayRti.__init__`: stores the wrapped array and computes
`_isStructured` as: the array is not `None` and its dtype has field
names. -/
def mkZarrArrayRti (zarrArray : Option ZarrArray) (nodeName fileName iconColor : String) :
    ZarrArrayRti :=
  ⟨zarrArray, nodeName, fileName, iconColor,
    match zarrArray with
    | some a => a.dtypeNames.isSome
    | none => false⟩

/-- Accessing an attribute of the wrapped array when the reference is
`None` raises `AttributeError`; otherwise yields the array. -/
def reqArray : Option ZarrArray → Except String ZarrArray
  | some a => Except.ok a
  | none => Except.error ("AttributeError: NoneType object has no attribute")

/-- `ZarrArrayRti.attributes`: dictionary of the wrapped array's
attributes. -/
def ZarrArrayRti.attributes (rti : ZarrArrayRti) : Except String (List (String × Value)) :=
  (reqArray rti.zarrArray).map (fun a => attrsToDict a.attrs)

/-- `ZarrArrayRti.arrayShape`: the shape of the wrapped array. -/
def ZarrArrayRti.arrayShape (rti : ZarrArrayRti) : Except String (List Nat) :=
  (reqArray rti.zarrArray).map (fun a => a.shape)

/-- Result type of `ZarrArrayRti.chunking`: either the chunk sizes or
the string marker for contiguous storage. -/
inductive Chunking : Type where
  | chunkSizes (cs : List Nat) : Chunking
  | contiguous : Chunking

/-- `ZarrArrayRti.chunking`: the chunk sizes when truthy (a non-empty
tuple), otherwise the `contiguous` marker. -/
def ZarrArrayRti.chunking (rti : ZarrArrayRti) : Except String Chunking :=
  (reqArray rti.zarrArray).map (fun a =>
    match a.chunks with
    | some cs => if cs.isEmpty then Chunking.contiguous else Chunking.chunkSizes cs
    | none => Chunking.contiguous)

/-- `ZarrArrayRti.elementTypeName`: the string form of the dtype. -/
def ZarrArrayRti.elementTypeName (rti : ZarrArrayRti) : Except String String :=
  (reqArray rti.zarrArray).map (fun a => a.dtypeStr)

/-- The xarray dimension-names attribute key. -/
def arrayDimensionsKey : String := "_ARRAY_DIMENSIONS"

/-- `ZarrArrayRti.dimensionNames`: the `_ARRAY_DIMENSIONS` attribute
converted to a list when present, otherwise default names generated
from the template, one per dimension of the shape. -/
def ZarrArrayRti.dimensionNames (rti : ZarrArrayRti) : Except String (List Value) :=
  (reqArray rti.zarrArray).bind (fun a =>
    if a.attrs.mem arrayDimensionsKey then
      (a.attrs.read arrayDimensionsKey).bind pyList
    else
      Except.ok ((List.range a.shape.length).map (fun dimNr => Value.vStr (dimTemplateFormat dimNr))))

/-- `ZarrArrayRti.unit`: delegates to `zarrArrayUnit`. -/
def ZarrArrayRti.unit (rti : ZarrArrayRti) : Except String String :=
  (reqArray rti.zarrArray).bind zarrArrayUnit

/-- `ZarrArrayRti.missingDataValue`: delegates to
`zarrArrayMissingValue`. -/
def ZarrArrayRti.missingDataValue (rti : ZarrArrayRti) : Except String (Option Value) :=
  (reqArray rti.zarrArray).bind zarrArrayMissingValue

/-- Modelled from the spec: `shapeToSummary` from `argos.repo.baserti`
(not part of the analysed sources) renders an array shape as a summary
string. -/
def shapeToSummary (shape : List Nat) : String :=
  "array " ++ toString shape

/-- `ZarrArrayRti.summary`: the shape rendered as a summary string. -/
def ZarrArrayRti.summary (rti : ZarrArrayRti) : Except String String :=
  (reqArray rti.zarrArray).map (fun a => shapeToSummary a.shape)

/-- `ZarrArrayRti.__getitem__`: indexes the wrapped array, converts to a
numpy array, and masks at the missing data value. -/
def ZarrArrayRti.getItem (rti : ZarrArrayRti) (index : Nat) :
    Except String (List (Value × Bool)) :=
  (reqArray rti.zarrArray).bind (fun a =>
    (ZarrArrayRti.missingDataValue rti).map (fun mv =>
      maskedEqual (a.data index) mv))

/-- Identifier of a Zarr group object inside the open store. -/
abbrev GroupId : Type := Nat

/-- The kind of object a group subscript `group[key]` returns: a Zarr
array, a Zarr subgroup, or an object of some other type (its type name
recorded for the warning message). -/
inductive ZarrItem : Type where
  | array (a : ZarrArray) : ZarrItem
  | group (gid : GroupId) : ZarrItem
  | other (typeName : String) : ZarrItem

/-- Model of the open Zarr store: the behaviour of the external group
objects, indexed by group identifier.  `keysOf` is `group.keys()` (which
may raise), `getChild` is `group[key]` (which may raise), and `attrsOf`
is `group.attrs`. -/
structure ZarrEnv where
  keysOf : GroupId → Except String (List String)
  getChild : GroupId → String → Except String ZarrItem
  attrsOf : GroupId → Attrs

/-- `ZarrGroupRti`: the repository tree item wrapping a Zarr group (or,
for the root item, the whole store).  Fields in constructor order: the
wrapped group reference (possibly `None`), node name, file name, icon
color, root flag. -/
structure ZarrGroupRti where
  zarrGroup : Option GroupId
  nodeName : String
  fileName : String
  iconColor : String
  isRoot : Bool

/-- Python string comparison: lexicographic on code points. -/
def charListLe : List Char → List Char → Bool
  | [], _ => true
  | _ :: _, [] => false
  | a :: as, b :: bs =>
    if a.toNat < b.toNat then true
    else if b.toNat < a.toNat then false
    else charListLe as bs

/-- Python `a <= b` on strings. -/
def strLe (a b : String) : Bool := charListLe a.data b.data

/-- Inserts a string into a sorted list, before any equal element. -/
def insertSorted (x : String) : List String → List String
  | [] => [x]
  | y :: ys => if strLe x y then x :: y :: ys else y :: insertSorted x ys

/-- Python `sorted()` on a list of strings: a stable ascending sort. -/
def pySorted (l : List String) : List String := l.foldr insertSorted []

/-- `ZarrGroupRti.attributes`: the group's attributes as a dictionary,
or the empty dictionary when the wrapped group is `None`. -/
def ZarrGroupRti.attributes (env : ZarrEnv) (rti : ZarrGroupRti) : List (String × Value) :=
  match rti.zarrGroup with
  | some gid => attrsToDict (env.attrsOf gid)
  | none => []

/-- `ZarrGroupRti.summary`: the number of keys rendered as an item
count; the empty string when the wrapped group is `None` or counting the
keys raises (the exception is swallowed). -/
def ZarrGroupRti.summary (env : ZarrEnv) (rti : ZarrGroupRti) : String :=
  match rti.zarrGroup with
  | none => ""
  | some gid =>
    match env.keysOf gid with
    | Except.ok ks =>
      toString ks.length ++ " item" ++ (if ks.length != 1 then "s" else "")
    | Except.error _ => ""

/-- `ZarrGroupRti._openResources`: for a root item without a group
reference, raises `OSError` when the store path does not exist and
otherwise opens the store with `zarr.open` (whose exceptions
propagate); for any other item it does nothing.  `pathExists` models
`os.path.exists` and `zarrOpen` models `zarr.open(fileName, mode=r)`. -/
def ZarrGroupRti.openResources (pathExists : String → Bool)
    (zarrOpen : String → Except String GroupId) (rti : ZarrGroupRti) :
    Except String ZarrGroupRti :=
  if rti.isRoot && rti.zarrGroup.isNone then
    if !(pathExists rti.fileName) then
      Except.error ("Zarr store does not exist: " ++ rti.fileName)
    else
      (zarrOpen rti.fileName).map (fun gid =>
        ⟨some gid, rti.nodeName, rti.fileName, rti.iconColor, rti.isRoot⟩)
  else Except.ok rti

/-- `ZarrGroupRti._closeResources`: sets the wrapped group reference to
`None` (the root-only guard in the source covers only the log
message). -/
def ZarrGroupRti.closeResources (rti : ZarrGroupRti) : ZarrGroupRti :=
  ⟨none, rti.nodeName, rti.fileName, rti.iconColor, rti.isRoot⟩

/-- A child node produced by `ZarrGroupRti._fetchAllChildren`. -/
inductive ChildRti : Type where
  | arrayRti (r : ZarrArrayRti) : ChildRti
  | groupRti (r : ZarrGroupRti) : ChildRti

/-- The node name of a produced child. -/
def ChildRti.childNodeName : ChildRti → String
  | ChildRti.arrayRti r => r.nodeName
  | ChildRti.groupRti r => r.nodeName

/-- `ZarrGroupRti._fetchAllChildren`: iterates the sorted keys of the
wrapped group, wrapping each Zarr array in a `ZarrArrayRti` and each
Zarr group in a non-root `ZarrGroupRti` (both inheriting the parent's
file name and icon color), skipping children of unknown type and
children whose read raises (both with a logged warning); a failure to
list the keys is caught and yields the items accumulated so far; with no
wrapped group the list is empty.  Every exception is caught, so the
result is always `Except.ok`. -/
def ZarrGroupRti.fetchAllChildren (env : ZarrEnv) (rti : ZarrGroupRti) :
    Except String (List ChildRti) :=
  match rti.zarrGroup with
  | none => Except.ok []
  | some gid =>
    match env.keysOf gid with
    | Except.error _ => Except.ok []
    | Except.ok ks =>
      Except.ok ((pySorted ks).foldl (fun childItems key =>
        match env.getChild gid key with
        | Except.ok (ZarrItem.array a) =>
          childItems ++ [ChildRti.arrayRti (mkZarrArrayRti (some a) key rti.fileName rti.iconColor)]
        | Except.ok (ZarrItem.group cg) =>
          childItems ++ [ChildRti.groupRti ⟨some cg, key, rti.fileName, rti.iconColor, false⟩]
        | Except.ok (ZarrItem.other _) => childItems
        | Except.error _ => childItems) [])

/-! ### Helper lemmas about attribute lookup -/

theorem lookupFirstAttr_found (attrs : Attrs) (pre post : List String) (k : String) (v : Value)
    (hpre : ∀ kk, kk ∈ pre → attrs.mem kk = false)
    (hmem : attrs.mem k = true) (hread : attrs.read k = Except.ok v) :
    lookupFirstAttr attrs (pre ++ k :: post) = Except.ok (some v) := by
  induction pre with
  | nil => simp [lookupFirstAttr, hmem, hread, Except.map]
  | cons p ps ih =>
    have hp : attrs.mem p = false := hpre p (by simp)
    simp only [List.cons_append, lookupFirstAttr, hp, Bool.false_eq_true, if_false]
    exact ih (fun kk hk => hpre kk (by simp [hk]))

theorem lookupFirstAttr_none (attrs : Attrs) (keys : List String)
    (h : ∀ k, k ∈ keys → attrs.mem k = false) :
    lookupFirstAttr attrs keys = Except.ok none := by
  induction keys with
  | nil => rfl
  | cons p ps ih =>
    simp only [lookupFirstAttr, h p (by simp), Bool.false_eq_true, if_false]
    exact ih (fun k hk => h k (by simp [hk]))

theorem zarrArrayMissingValue_no_fill (a : ZarrArray)
    (h : a.hasFillValue = false ∨ a.fillValue = none ∨
      (∃ fv, a.fillValue = some fv ∧ pyNeZero fv = false)) :
    zarrArrayMissingValue a = lookupFirstAttr a.attrs missingValueAttrKeys := by
  rcases h with h | h | ⟨fv, h1, h2⟩
  · simp [zarrArrayMissingValue, h]
  · cases hf : a.hasFillValue <;> simp [zarrArrayMissingValue, hf, h]
  · cases hf : a.hasFillValue <;> simp [zarrArrayMissingValue, hf, h1, h2]

/-! ### Theorems for the claims -/

/-- C9: After `_closeResources` runs on any `ZarrGroupRti`, root or
nested, the wrapped group reference is `None`, and every subsequent
`_fetchAllChildren` call returns the empty list. -/
theorem c9_closeResources_clears_group (env : ZarrEnv) (rti : ZarrGroupRti) :
    (ZarrGroupRti.closeResources rti).zarrGroup = none ∧
    ZarrGroupRti.fetchAllChildren env (ZarrGroupRti.closeResources rti) = Except.ok [] :=
  ⟨rfl, rfl⟩

/-- C7: For every `ZarrGroupRti` with a wrapped group whose keys can be
counted, `summary` is the key count followed by item (singular exactly
for one key); when the wrapped group is `None` or counting raises, it is
the empty string, and no exception escapes. -/
theorem c7_group_summary_counts_keys (env : ZarrEnv) (rti : ZarrGroupRti) :
    (∀ gid ks, rti.zarrGroup = some gid → env.keysOf gid = Except.ok ks →
      ZarrGroupRti.summary env rti =
        toString ks.length ++ (if ks.length = 1 then " item" else " items")) ∧
    (rti.zarrGroup = none → ZarrGroupRti.summary env rti = "") ∧
    (∀ gid e, rti.zarrGroup = some gid → env.keysOf gid = Except.error e →
      ZarrGroupRti.summary env rti = "") := by
  refine ⟨?_, ?_, ?_⟩
  · intro gid ks h1 h2
    simp only [ZarrGroupRti.summary, h1, h2]
    by_cases h : ks.length = 1
    · simp [h]
    · have hb : (ks.length != 1) = true := by simpa using h
      have hs : (" item" ++ "s" : String) = " items" := rfl
      rw [hb, if_pos rfl, if_neg h, String.append_assoc, hs]
  · intro h
    simp [ZarrGroupRti.summary, h]
  · intro gid e h1 h2
    simp [ZarrGroupRti.summary, h1, h2]

/-- C4: `zarrArrayMissingValue` returns the fill value when it exists,
is not `None` and is not `0`; otherwise the value of the first attribute
present among the missing-value names, in order; otherwise `None`. -/
theorem c4_missing_value_priority (a : ZarrArray) :
    (∀ fv, a.hasFillValue = true → a.fillValue = some fv → pyNeZero fv = true →
      zarrArrayMissingValue a = Except.ok (some fv)) ∧
    ((a.hasFillValue = false ∨ a.fillValue = none ∨
        (∃ fv, a.fillValue = some fv ∧ pyNeZero fv = false)) →
      (∀ pre k post v, missingValueAttrKeys = pre ++ k :: post →
        (∀ kk, kk ∈ pre → a.attrs.mem kk = false) →
        a.attrs.mem k = true → a.attrs.read k = Except.ok v →
        zarrArrayMissingValue a = Except.ok (some v)) ∧
      ((∀ k, k ∈ missingValueAttrKeys → a.attrs.mem k = false) →
        zarrArrayMissingValue a = Except.ok none)) := by
  refine ⟨?_, fun hnf => ⟨?_, ?_⟩⟩
  · intro fv h1 h2 h3
    simp [zarrArrayMissingValue, h1, h2, h3]
  · intro pre k post v hsplit hpre hmem hread
    rw [zarrArrayMissingValue_no_fill a hnf, hsplit]
    exact lookupFirstAttr_found a.attrs pre post k v hpre hmem hread
  · intro habs
    rw [zarrArrayMissingValue_no_fill a hnf]
    exact lookupFirstAttr_none a.attrs missingValueAttrKeys habs

/-- C5: `zarrArrayUnit` returns the string conversion of the first
attribute present among the unit names, in order, and the empty string
when none is present. -/
theorem c5_unit_lookup (a : ZarrArray) :
    (∀ pre k post v, unitAttrKeys = pre ++ k :: post →
      (∀ kk, kk ∈ pre → a.attrs.mem kk = false) →
      a.attrs.mem k = true → a.attrs.read k = Except.ok v →
      zarrArrayUnit a = Except.ok (pyStr v)) ∧
    ((∀ k, k ∈ unitAttrKeys → a.attrs.mem k = false) →
      zarrArrayUnit a = Except.ok "") := by
  constructor
  · intro pre k post v hsplit hpre hmem hread
    rw [zarrArrayUnit, hsplit, lookupFirstAttr_found a.attrs pre post k v hpre hmem hread]
    rfl
  · intro habs
    rw [zarrArrayUnit, lookupFirstAttr_none a.attrs unitAttrKeys habs]
    rfl

/-! ### Sample objects for concrete evaluations -/

/-- A sample attributes object with no attributes. -/
def emptyAttrs : Attrs := ⟨[], none, fun _ => false, fun _ => Except.error ("KeyError")⟩

/-- A sample attributes object holding MissingValue and units entries. -/
def sampleAttrs : Attrs :=
  ⟨["MissingValue", "units"], none,
   fun k => k == "MissingValue" || k == "units",
   fun k =>
     if k == "MissingValue" then Except.ok (Value.vInt (-999))
     else if k == "units" then Except.ok (Value.vStr "m")
     else Except.error ("KeyError")⟩

/-- A sample one-dimensional Zarr array with fill value `0`, a
MissingValue attribute and a units attribute. -/
def sampleArray : ZarrArray :=
  ⟨[2], none, "int64", some [2], true, some (Value.vInt 0), sampleAttrs,
   fun _ => [Value.vInt (-999), Value.vInt 7]⟩

/-- The sample array wrapped in a repository tree item. -/
def sampleArrayRti : ZarrArrayRti :=
  mkZarrArrayRti (some sampleArray) "data" "store.zarr" "#E377C2"

/-- A sample group environment: one group with two keys, whose children
cannot be read. -/
def sampleEnv : ZarrEnv :=
  ⟨fun _ => Except.ok ["b", "a"],
   fun _ _ => Except.error ("KeyError"),
   fun _ => emptyAttrs⟩

/-- A sample open root group item. -/
def rootRti : ZarrGroupRti := ⟨some 0, "store.zarr", "store.zarr", "#E377C2", true⟩

/-- Witness for C9 is not needed (no hypotheses); witness attributes
object whose reads partly fail and whose iteration raises at the end. -/
def failAttrs : Attrs :=
  ⟨["good", "bad"], some "RuntimeError: store closed",
   fun k => k == "good" || k == "bad",
   fun k => if k == "good" then Except.ok (Value.vInt 1)
            else Except.error ("OSError: cannot read")⟩

/-- An attributes object carrying a three-name `_ARRAY_DIMENSIONS`
entry. -/
def dimAttrs : Attrs :=
  ⟨["_ARRAY_DIMENSIONS"], none,
   fun k => k == "_ARRAY_DIMENSIONS",
   fun k => if k == "_ARRAY_DIMENSIONS"
     then Except.ok (Value.vList [Value.vStr "x", Value.vStr "y", Value.vStr "z"])
     else Except.error ("KeyError")⟩

/-- A rank-one array carrying the three-name `_ARRAY_DIMENSIONS`
attribute. -/
def dimArray : ZarrArray := ⟨[2], none, "int64", some [2], false, none, dimAttrs, fun _ => []⟩

/-- The rank-one array with mismatched dimension names, wrapped. -/
def dimArrayRti : ZarrArrayRti :=
  mkZarrArrayRti (some dimArray) "data2" "store.zarr" "#E377C2"

/-- Witness for C7: the sample root group with two keys reports the
plural item count. -/
theorem c7_group_summary_counts_keys_witness :
    ZarrGroupRti.summary sampleEnv rootRti = "2 items" :=
  (c7_group_summary_counts_keys sampleEnv rootRti).1 0 ["b", "a"] rfl rfl

/-- Witness for C4: fill value `0` is skipped and the MissingValue
attribute, second in the search order, is returned. -/
theorem c4_missing_value_priority_witness :
    zarrArrayMissingValue sampleArray = Except.ok (some (Value.vInt (-999))) :=
  ((c4_missing_value_priority sampleArray).2
    (Or.inr (Or.inr ⟨Value.vInt 0, rfl, rfl⟩))).1
    ["missing_value"] "MissingValue" ["missingValue", "FillValue", "_FillValue", "fill_value"]
    (Value.vInt (-999)) rfl (by decide) rfl rfl

/-- Witness for C5: the units attribute, second in the search order, is
returned as a string. -/
theorem c5_unit_lookup_witness : zarrArrayUnit sampleArray = Except.ok "m" :=
  (c5_unit_lookup sampleArray).1 ["unit"] "units" ["Unit", "Units", "UNIT", "UNITS"]
    (Value.vStr "m") rfl (by decide) rfl rfl

/-! ### attrsToDict -/

/-- What `attrsToDict` stores for one key: the value on success, the
exception text on failure. -/
def attrReadResult (attrs : Attrs) (key : String) : Value :=
  match attrs.read key with
  | Except.ok v => v
  | Except.error ex => Value.vStr ex

theorem attrsToDict_eq_foldl (attrs : Attrs) :
    attrsToDict attrs = attrs.keysSeq.foldl (fun result key =>
      match attrs.read key with
      | Except.ok v => dictInsert result key v
      | Except.error ex => dictInsert result key (Value.vStr ex)) [] := by
  cases hE : attrs.iterError <;> simp [attrsToDict, hE]

theorem dictInsert_fresh (d : List (String × Value)) (key : String) (v : Value)
    (h : ∀ p, p ∈ d → p.1 ≠ key) : dictInsert d key v = d ++ [(key, v)] := by
  have hany : d.any (fun p => p.1 == key) = false := by
    simp only [List.any_eq_false]
    intro p hp
    simpa using h p hp
  simp [dictInsert, hany]

theorem attrs_foldl_fresh (attrs : Attrs) (keys : List String) (acc : List (String × Value))
    (hdisj : ∀ p, p ∈ acc → ∀ k, k ∈ keys → p.1 ≠ k) (hnodup : keys.Nodup) :
    keys.foldl (fun result key =>
      match attrs.read key with
      | Except.ok v => dictInsert result key v
      | Except.error ex => dictInsert result key (Value.vStr ex)) acc
    = acc ++ keys.map (fun key => (key, attrReadResult attrs key)) := by
  induction keys generalizing acc with
  | nil => simp
  | cons k ks ih =>
    have hk : ∀ p, p ∈ acc → p.1 ≠ k := fun p hp => hdisj p hp k (by simp)
    have hstep : (match attrs.read k with
        | Except.ok v => dictInsert acc k v
        | Except.error ex => dictInsert acc k (Value.vStr ex))
        = acc ++ [(k, attrReadResult attrs k)] := by
      cases hr : attrs.read k <;> simp [attrReadResult, hr, dictInsert_fresh _ _ _ hk]
    rw [List.foldl_cons, hstep,
      ih (acc ++ [(k, attrReadResult attrs k)]) ?_ (List.Nodup.of_cons hnodup)]
    · simp
    · intro p hp kk hkk
      rcases List.mem_append.mp hp with hp | hp
      · exact hdisj p hp kk (by simp [hkk])
      · have hpk : p.1 = k := by
          simp only [List.mem_singleton] at hp
          rw [hp]
        rw [hpk]
        intro hkkk
        exact (List.nodup_cons.mp hnodup).1 (hkkk.symm ▸ hkk)

/-- C2: `attrsToDict` never raises; a key whose value can be read is
mapped to that value, a key whose read raises is mapped to the exception
text, and an exception while iterating the keys leaves the partial
dictionary accumulated so far as the result. -/
theorem c2_attrsToDict_graceful (attrs : Attrs) :
    (∀ e, attrsToDict ⟨attrs.keysSeq, e, attrs.mem, attrs.read⟩ = attrsToDict attrs) ∧
    (attrs.keysSeq.Nodup →
      attrsToDict attrs = attrs.keysSeq.map (fun key => (key, attrReadResult attrs key))) := by
  constructor
  · intro e
    rw [attrsToDict_eq_foldl, attrsToDict_eq_foldl]
  · intro h
    rw [attrsToDict_eq_foldl]
    simpa using attrs_foldl_fresh attrs attrs.keysSeq [] (by simp) h

/-- Witness for C2: an attributes object with one readable key, one
failing key and an iteration error maps the first to its value and the
second to the exception text. -/
theorem c2_attrsToDict_graceful_witness :
    attrsToDict failAttrs =
      [("good", Value.vInt 1), ("bad", Value.vStr "OSError: cannot read")] :=
  (c2_attrsToDict_graceful failAttrs).2 (by decide)

/-- C6: `__getitem__` returns exactly the wrapped array data at the
index, masked at the missing data value, with no other
transformation. -/
theorem c6_getitem_masked (rti : ZarrArrayRti) (a : ZarrArray) (index : Nat) (mv : Option Value)
    (h : rti.zarrArray = some a)
    (hmv : ZarrArrayRti.missingDataValue rti = Except.ok mv) :
    ZarrArrayRti.getItem rti index = Except.ok (maskedEqual (a.data index) mv) := by
  simp [ZarrArrayRti.getItem, reqArray, h, hmv, Except.bind, Except.map]

/-- Witness for C6: indexing the sample array masks the element equal to
the missing value and keeps the other. -/
theorem c6_getitem_masked_witness :
    ZarrArrayRti.getItem sampleArrayRti 0 =
      Except.ok [(Value.vInt (-999), true), (Value.vInt 7, false)] :=
  c6_getitem_masked sampleArrayRti sampleArray 0 (some (Value.vInt (-999))) rfl rfl

/-- C10: with no `_ARRAY_DIMENSIONS` attribute, `dimensionNames` returns
generated default names, one per dimension of the shape; with the
attribute present its value is returned as a list unconditionally, with
no check against the array rank. -/
theorem c10_dimension_names (rti : ZarrArrayRti) (a : ZarrArray)
    (h : rti.zarrArray = some a) :
    (a.attrs.mem arrayDimensionsKey = false →
      ZarrArrayRti.dimensionNames rti =
        Except.ok ((List.range a.shape.length).map
          (fun dimNr => Value.vStr (dimTemplateFormat dimNr))) ∧
      ∃ names, ZarrArrayRti.dimensionNames rti = Except.ok names ∧
        names.length = a.shape.length) ∧
    (∀ vs, a.attrs.mem arrayDimensionsKey = true →
      a.attrs.read arrayDimensionsKey = Except.ok (Value.vList vs) →
      ZarrArrayRti.dimensionNames rti = Except.ok vs) := by
  constructor
  · intro hmem
    have hd : ZarrArrayRti.dimensionNames rti =
        Except.ok ((List.range a.shape.length).map
          (fun dimNr => Value.vStr (dimTemplateFormat dimNr))) := by
      simp [ZarrArrayRti.dimensionNames, reqArray, h, hmem, Except.bind]
    exact ⟨hd, _, hd, by simp⟩
  · intro vs hmem hread
    simp [ZarrArrayRti.dimensionNames, reqArray, h, hmem, hread, Except.bind, pyList]

/-- Witness for C10: a three-name `_ARRAY_DIMENSIONS` attribute on a
rank-one array is returned unchanged. -/
theorem c10_dimension_names_witness :
    ZarrArrayRti.dimensionNames dimArrayRti =
      Except.ok [Value.vStr "x", Value.vStr "y", Value.vStr "z"] :=
  (c10_dimension_names dimArrayRti dimArray rfl).2
    [Value.vStr "x", Value.vStr "y", Value.vStr "z"] rfl rfl

/-! ### Metadata property reads in state-passing form

Each Python property body reads fields of the node and queries the
wrapped object; it contains no assignment, so its state-passing
translation returns the node unchanged alongside the value. -/

/-- State-passing read of `ZarrArrayRti.attributes`. -/
def ZarrArrayRti.attributesRun (rti : ZarrArrayRti) :
    (Except String (List (String × Value))) × ZarrArrayRti :=
  (ZarrArrayRti.attributes rti, rti)

/-- State-passing read of `ZarrArrayRti.summary`. -/
def ZarrArrayRti.summaryRun (rti : ZarrArrayRti) : (Except String String) × ZarrArrayRti :=
  (ZarrArrayRti.summary rti, rti)

/-- State-passing read of `ZarrArrayRti.unit`. -/
def ZarrArrayRti.unitRun (rti : ZarrArrayRti) : (Except String String) × ZarrArrayRti :=
  (ZarrArrayRti.unit rti, rti)

/-- State-passing read of `ZarrArrayRti.missingDataValue`. -/
def ZarrArrayRti.missingDataValueRun (rti : ZarrArrayRti) :
    (Except String (Option Value)) × ZarrArrayRti :=
  (ZarrArrayRti.missingDataValue rti, rti)

/-- State-passing read of `ZarrArrayRti.arrayShape`. -/
def ZarrArrayRti.arrayShapeRun (rti : ZarrArrayRti) :
    (Except String (List Nat)) × ZarrArrayRti :=
  (ZarrArrayRti.arrayShape rti, rti)

/-- State-passing read of `ZarrArrayRti.chunking`. -/
def ZarrArrayRti.chunkingRun (rti : ZarrArrayRti) : (Except String Chunking) × ZarrArrayRti :=
  (ZarrArrayRti.chunking rti, rti)

/-- State-passing read of `ZarrArrayRti.elementTypeName`. -/
def ZarrArrayRti.elementTypeNameRun (rti : ZarrArrayRti) :
    (Except String String) × ZarrArrayRti :=
  (ZarrArrayRti.elementTypeName rti, rti)

/-- State-passing read of `ZarrArrayRti.dimensionNames`. -/
def ZarrArrayRti.dimensionNamesRun (rti : ZarrArrayRti) :
    (Except String (List Value)) × ZarrArrayRti :=
  (ZarrArrayRti.dimensionNames rti, rti)

/-- State-passing read of `ZarrGroupRti.attributes`. -/
def ZarrGroupRti.attributesRun (env : ZarrEnv) (rti : ZarrGroupRti) :
    (List (String × Value)) × ZarrGroupRti :=
  (ZarrGroupRti.attributes env rti, rti)

/-- State-passing read of `ZarrGroupRti.summary`. -/
def ZarrGroupRti.summaryRun (env : ZarrEnv) (rti : ZarrGroupRti) : String × ZarrGroupRti :=
  (ZarrGroupRti.summary env rti, rti)

/-- C8: reading any metadata property leaves every field of the node
unchanged, and each property depends only on the wrapped object
reference (queried on demand), not on any other state of the node. -/
theorem c8_metadata_reads_frame (env : ZarrEnv) (rti rti2 : ZarrArrayRti)
    (grti grti2 : ZarrGroupRti)
    (ha : rti.zarrArray = rti2.zarrArray) (hg : grti.zarrGroup = grti2.zarrGroup) :
    ((ZarrArrayRti.attributesRun rti).2 = rti ∧ (ZarrArrayRti.summaryRun rti).2 = rti ∧
     (ZarrArrayRti.unitRun rti).2 = rti ∧ (ZarrArrayRti.missingDataValueRun rti).2 = rti ∧
     (ZarrArrayRti.arrayShapeRun rti).2 = rti ∧ (ZarrArrayRti.chunkingRun rti).2 = rti ∧
     (ZarrArrayRti.elementTypeNameRun rti).2 = rti ∧
     (ZarrArrayRti.dimensionNamesRun rti).2 = rti ∧
     (ZarrGroupRti.attributesRun env grti).2 = grti ∧
     (ZarrGroupRti.summaryRun env grti).2 = grti) ∧
    (ZarrArrayRti.attributes rti = ZarrArrayRti.attributes rti2 ∧
     ZarrArrayRti.summary rti = ZarrArrayRti.summary rti2 ∧
     ZarrArrayRti.unit rti = ZarrArrayRti.unit rti2 ∧
     ZarrArrayRti.missingDataValue rti = ZarrArrayRti.missingDataValue rti2 ∧
     ZarrArrayRti.arrayShape rti = ZarrArrayRti.arrayShape rti2 ∧
     ZarrArrayRti.chunking rti = ZarrArrayRti.chunking rti2 ∧
     ZarrArrayRti.elementTypeName rti = ZarrArrayRti.elementTypeName rti2 ∧
     ZarrArrayRti.dimensionNames rti = ZarrArrayRti.dimensionNames rti2 ∧
     ZarrGroupRti.attributes env grti = ZarrGroupRti.attributes env grti2 ∧
     ZarrGroupRti.summary env grti = ZarrGroupRti.summary env grti2) := by
  refine ⟨⟨rfl, rfl, rfl, rfl, rfl, rfl, rfl, rfl, rfl, rfl⟩, ?_, ?_, ?_, ?_, ?_, ?_, ?_, ?_, ?_, ?_⟩
  · rw [ZarrArrayRti.attributes, ZarrArrayRti.attributes, ha]
  · rw [ZarrArrayRti.summary, ZarrArrayRti.summary, ha]
  · rw [ZarrArrayRti.unit, ZarrArrayRti.unit, ha]
  · rw [ZarrArrayRti.missingDataValue, ZarrArrayRti.missingDataValue, ha]
  · rw [ZarrArrayRti.arrayShape, ZarrArrayRti.arrayShape, ha]
  · rw [ZarrArrayRti.chunking, ZarrArrayRti.chunking, ha]
  · rw [ZarrArrayRti.elementTypeName, ZarrArrayRti.elementTypeName, ha]
  · rw [ZarrArrayRti.dimensionNames, ZarrArrayRti.dimensionNames, ha]
  · rw [ZarrGroupRti.attributes, ZarrGroupRti.attributes, hg]
  · rw [ZarrGroupRti.summary, ZarrGroupRti.summary, hg]

/-- Witness for C8 at concrete nodes: two array nodes sharing a wrapped
array but differing in name agree on every metadata property, and the
state-passing reads return the sample nodes unchanged. -/
theorem c8_metadata_reads_frame_witness :
    (ZarrArrayRti.attributesRun sampleArrayRti).2 = sampleArrayRti ∧
    ZarrArrayRti.unit sampleArrayRti =
      ZarrArrayRti.unit (mkZarrArrayRti (some sampleArray) "other" "f.zarr" "#FFFFFF") :=
  ⟨(c8_metadata_reads_frame sampleEnv sampleArrayRti
      (mkZarrArrayRti (some sampleArray) "other" "f.zarr" "#FFFFFF")
      rootRti rootRti rfl rfl).1.1,
   (c8_metadata_reads_frame sampleEnv sampleArrayRti
      (mkZarrArrayRti (some sampleArray) "other" "f.zarr" "#FFFFFF")
      rootRti rootRti rfl rfl).2.2.2.1⟩

/-! ### Sorting lemmas for the modelled Python sorted builtin -/

theorem charListLe_total (a b : List Char) : charListLe a b = true ∨ charListLe b a = true := by
  induction a generalizing b with
  | nil => left; rfl
  | cons x xs ih =>
    cases b with
    | nil => right; rfl
    | cons y ys =>
      by_cases hxy : x.toNat < y.toNat
      · left; simp [charListLe, hxy]
      · by_cases hyx : y.toNat < x.toNat
        · right; simp [charListLe, hyx]
        · rcases ih ys with h | h
          · left; simp [charListLe, hxy, hyx, h]
          · right; simp [charListLe, hxy, hyx, h]

theorem charListLe_trans (a b c : List Char) (h1 : charListLe a b = true)
    (h2 : charListLe b c = true) : charListLe a c = true := by
  induction a generalizing b c with
  | nil => rfl
  | cons x xs ih =>
    cases b with
    | nil => simp [charListLe] at h1
    | cons y ys =>
      cases c with
      | nil => simp [charListLe] at h2
      | cons z zs =>
        simp only [charListLe] at h1 h2 ⊢
        by_cases hxy : x.toNat < y.toNat
        · by_cases hyz : y.toNat < z.toNat
          · simp [Nat.lt_trans hxy hyz]
          · have hzy : ¬ z.toNat < y.toNat := by
              intro hzy
              simp [hyz, hzy] at h2
            have hxz : x.toNat < z.toNat := by omega
            simp [hxz]
        · have hyx : ¬ y.toNat < x.toNat := by
            intro hyx
            simp [hxy, hyx] at h1
          have hrec1 : charListLe xs ys = true := by simpa [hxy, hyx] using h1
          by_cases hyz : y.toNat < z.toNat
          · have hxz : x.toNat < z.toNat := by omega
            simp [hxz]
          · have hzy : ¬ z.toNat < y.toNat := by
              intro hzy
              simp [hyz, hzy] at h2
            have hrec2 : charListLe ys zs = true := by simpa [hyz, hzy] using h2
            have hxz : ¬ x.toNat < z.toNat := by omega
            have hzx : ¬ z.toNat < x.toNat := by omega
            simp [hxz, hzx]
            exact ih ys zs hrec1 hrec2

theorem strLe_total (a b : String) : strLe a b = true ∨ strLe b a = true :=
  charListLe_total a.data b.data

theorem strLe_trans (a b c : String) (h1 : strLe a b = true) (h2 : strLe b c = true) :
    strLe a c = true :=
  charListLe_trans a.data b.data c.data h1 h2

theorem mem_insertSorted (x b : String) (l : List String) :
    b ∈ insertSorted x l ↔ b = x ∨ b ∈ l := by
  induction l with
  | nil => simp [insertSorted]
  | cons y ys ih =>
    by_cases h : strLe x y = true
    · simp only [insertSorted, if_pos h, List.mem_cons]
    · simp only [insertSorted, if_neg h, List.mem_cons, ih]
      tauto

theorem pairwise_insertSorted (x : String) (l : List String)
    (h : l.Pairwise (fun a b => strLe a b = true)) :
    (insertSorted x l).Pairwise (fun a b => strLe a b = true) := by
  induction l with
  | nil => simp [insertSorted]
  | cons y ys ih =>
    rcases List.pairwise_cons.mp h with ⟨hy, hys⟩
    by_cases hxy : strLe x y = true
    · simp only [insertSorted, hxy, if_true]
      refine List.Pairwise.cons ?_ h
      intro b hb
      rcases List.mem_cons.mp hb with rfl | hb
      · exact hxy
      · exact strLe_trans x y b hxy (hy b hb)
    · simp only [insertSorted, hxy, if_false]
      refine List.Pairwise.cons ?_ (ih hys)
      intro b hb
      rcases (mem_insertSorted x b ys).mp hb with rfl | hb
      · rcases strLe_total b y with hx | hx
        · exact absurd hx hxy
        · exact hx
      · exact hy b hb

theorem pairwise_pySorted (l : List String) :
    (pySorted l).Pairwise (fun a b => strLe a b = true) := by
  induction l with
  | nil => simp [pySorted]
  | cons x xs ih => exact pairwise_insertSorted x (pySorted xs) ih

/-! ### Characterisation of fetchAllChildren -/

theorem fetch_foldl_filterMap (env : ZarrEnv) (gid : GroupId) (fileName iconColor : String)
    (keys : List String) (acc : List ChildRti) :
    keys.foldl (fun childItems key =>
      match env.getChild gid key with
      | Except.ok (ZarrItem.array a) =>
        childItems ++ [ChildRti.arrayRti (mkZarrArrayRti (some a) key fileName iconColor)]
      | Except.ok (ZarrItem.group cg) =>
        childItems ++ [ChildRti.groupRti ⟨some cg, key, fileName, iconColor, false⟩]
      | Except.ok (ZarrItem.other _) => childItems
      | Except.error _ => childItems) acc
    = acc ++ keys.filterMap (fun key =>
      match env.getChild gid key with
      | Except.ok (ZarrItem.array a) =>
        some (ChildRti.arrayRti (mkZarrArrayRti (some a) key fileName iconColor))
      | Except.ok (ZarrItem.group cg) =>
        some (ChildRti.groupRti ⟨some cg, key, fileName, iconColor, false⟩)
      | Except.ok (ZarrItem.other _) => none
      | Except.error _ => none) := by
  induction keys generalizing acc with
  | nil => simp
  | cons k ks ih =>
    simp only [List.foldl_cons, List.filterMap_cons]
    cases hc : env.getChild gid k with
    | error e => simp only [ih, List.append_nil]
    | ok item => cases item <;> simp [ih, List.append_assoc]

theorem childFor_name (env : ZarrEnv) (gid : GroupId) (fileName iconColor : String)
    (key : String) (c : ChildRti)
    (h : (match env.getChild gid key with
      | Except.ok (ZarrItem.array a) =>
        some (ChildRti.arrayRti (mkZarrArrayRti (some a) key fileName iconColor))
      | Except.ok (ZarrItem.group cg) =>
        some (ChildRti.groupRti ⟨some cg, key, fileName, iconColor, false⟩)
      | Except.ok (ZarrItem.other _) => none
      | Except.error _ => none) = some c) :
    c.childNodeName = key := by
  cases hc : env.getChild gid key with
  | error e =>
    rw [hc] at h
    cases h
  | ok item =>
    cases item with
    | array a =>
      rw [hc] at h
      cases h
      rfl
    | group cg =>
      rw [hc] at h
      cases h
      rfl
    | other t =>
      rw [hc] at h
      cases h

/-- C3: for every open group, `_fetchAllChildren` traverses the sorted
keys of the group, wrapping each Zarr array child in a `ZarrArrayRti`
and each Zarr group child in a non-root `ZarrGroupRti`, both inheriting
the parent's file name and icon color, and skipping (with a warning)
each child of unknown type or whose read raises; the produced node names
are in sorted order. -/
theorem c3_fetch_children_sorted (env : ZarrEnv) (rti : ZarrGroupRti)
    (gid : GroupId) (ks : List String)
    (h1 : rti.zarrGroup = some gid) (h2 : env.keysOf gid = Except.ok ks) :
    ZarrGroupRti.fetchAllChildren env rti =
      Except.ok ((pySorted ks).filterMap (fun key =>
        match env.getChild gid key with
        | Except.ok (ZarrItem.array a) =>
          some (ChildRti.arrayRti (mkZarrArrayRti (some a) key rti.fileName rti.iconColor))
        | Except.ok (ZarrItem.group cg) =>
          some (ChildRti.groupRti ⟨some cg, key, rti.fileName, rti.iconColor, false⟩)
        | Except.ok (ZarrItem.other _) => none
        | Except.error _ => none)) ∧
    (∀ l, ZarrGroupRti.fetchAllChildren env rti = Except.ok l →
      l.Pairwise (fun c d => strLe c.childNodeName d.childNodeName = true)) := by
  have hmain : ZarrGroupRti.fetchAllChildren env rti =
      Except.ok ((pySorted ks).filterMap (fun key =>
        match env.getChild gid key with
        | Except.ok (ZarrItem.array a) =>
          some (ChildRti.arrayRti (mkZarrArrayRti (some a) key rti.fileName rti.iconColor))
        | Except.ok (ZarrItem.group cg) =>
          some (ChildRti.groupRti ⟨some cg, key, rti.fileName, rti.iconColor, false⟩)
        | Except.ok (ZarrItem.other _) => none
        | Except.error _ => none)) := by
    simp only [ZarrGroupRti.fetchAllChildren, h1, h2]
    rw [fetch_foldl_filterMap]
    simp
  refine ⟨hmain, ?_⟩
  intro l hl
  rw [hmain] at hl
  cases hl
  refine List.Pairwise.filterMap _ ?_ (pairwise_pySorted ks)
  intro a b hab c hc d hd
  rw [childFor_name env gid rti.fileName rti.iconColor a c (Option.mem_def.mp hc),
      childFor_name env gid rti.fileName rti.iconColor b d (Option.mem_def.mp hd)]
  exact hab

/-- A child array used in the fetch witness. -/
def childArray : ZarrArray := ⟨[3], none, "float64", some [3], false, none, emptyAttrs, fun _ => []⟩

/-- A group environment with array, group, unreadable and unknown-type
children under unsorted keys. -/
def richEnv : ZarrEnv :=
  ⟨fun gid => if gid == 0 then Except.ok ["zz", "arr", "grp", "bad", "odd"]
              else Except.error ("KeyError"),
   fun gid key =>
     if gid == 0 then
       if key == "arr" then Except.ok (ZarrItem.array childArray)
       else if key == "grp" then Except.ok (ZarrItem.group 1)
       else if key == "odd" then Except.ok (ZarrItem.other "int")
       else if key == "zz" then Except.ok (ZarrItem.array childArray)
       else Except.error ("OSError")
     else Except.error ("KeyError"),
   fun _ => emptyAttrs⟩

/-- Witness for C3: the sample group yields its array and group children
in sorted key order, skipping the unreadable and unknown-type ones. -/
theorem c3_fetch_children_sorted_witness :
    ZarrGroupRti.fetchAllChildren richEnv rootRti =
      Except.ok [ChildRti.arrayRti (mkZarrArrayRti (some childArray) "arr" "store.zarr" "#E377C2"),
        ChildRti.groupRti ⟨some 1, "grp", "store.zarr", "#E377C2", false⟩,
        ChildRti.arrayRti (mkZarrArrayRti (some childArray) "zz" "store.zarr" "#E377C2")] :=
  (c3_fetch_children_sorted richEnv rootRti 0 ["zz", "arr", "grp", "bad", "odd"] rfl rfl).1

/-- C1 as stated is false: `_openResources` on a root item whose store
path does not exist propagates an `OSError` to its caller. -/
theorem c1_counterexample :
    ZarrGroupRti.openResources (fun _ => false) (fun _ => Except.ok 0)
      ⟨none, "store.zarr", "store.zarr", "#E377C2", true⟩ =
      Except.error ("Zarr store does not exist: store.zarr") := rfl

/-- C1 amended: `_fetchAllChildren` never raises (every error from the
wrapped Zarr objects is caught locally), but `_openResources` does
propagate errors: it raises `OSError` when the store path does not exist
and passes through any exception raised by opening the store. -/
theorem c1_amended_error_policy :
    (∀ env rti, ∃ l, ZarrGroupRti.fetchAllChildren env rti = Except.ok l) ∧
    (∀ pathExists zarrOpen rti, rti.isRoot = true → rti.zarrGroup = none →
      pathExists rti.fileName = false →
      ZarrGroupRti.openResources pathExists zarrOpen rti =
        Except.error ("Zarr store does not exist: " ++ rti.fileName)) ∧
    (∀ pathExists zarrOpen rti e, rti.isRoot = true → rti.zarrGroup = none →
      pathExists rti.fileName = true → zarrOpen rti.fileName = Except.error e →
      ZarrGroupRti.openResources pathExists zarrOpen rti = Except.error e) := by
  refine ⟨?_, ?_, ?_⟩
  · intro env rti
    cases hz : rti.zarrGroup with
    | none => exact ⟨[], by simp [ZarrGroupRti.fetchAllChildren, hz]⟩
    | some gid =>
      cases hk : env.keysOf gid with
      | error e => exact ⟨[], by simp [ZarrGroupRti.fetchAllChildren, hz, hk]⟩
      | ok ks =>
        exact ⟨(pySorted ks).foldl (fun childItems key =>
            match env.getChild gid key with
            | Except.ok (ZarrItem.array a) =>
              childItems ++ [ChildRti.arrayRti (mkZarrArrayRti (some a) key rti.fileName rti.iconColor)]
            | Except.ok (ZarrItem.group cg) =>
              childItems ++ [ChildRti.groupRti ⟨some cg, key, rti.fileName, rti.iconColor, false⟩]
            | Except.ok (ZarrItem.other _) => childItems
            | Except.error _ => childItems) [],
          by simp [ZarrGroupRti.fetchAllChildren, hz, hk]⟩
  · intro pathExists zarrOpen rti h1 h2 h3
    simp [ZarrGroupRti.openResources, h1, h2, h3]
  · intro pathExists zarrOpen rti e h1 h2 h3 h4
    simp [ZarrGroupRti.openResources, h1, h2, h3, h4, Except.map]

/-- Witness for the amended C1: an exception from opening the store
propagates out of `_openResources` unchanged. -/
theorem c1_amended_error_policy_witness :
    ZarrGroupRti.openResources (fun _ => true) (fun _ => Except.error ("PermissionError"))
      ⟨none, "store.zarr", "store.zarr", "#E377C2", true⟩ =
      Except.error ("PermissionError") :=
  c1_amended_error_policy.2.2 (fun _ => true) (fun _ => Except.error ("PermissionError"))
    ⟨none, "store.zarr", "store.zarr", "#E377C2", true⟩ "PermissionError" rfl rfl rfl rfl
